import Mathlib

/-!
# Verification of the AdCP creative client/server polling protocol

Shallow embedding of the two source files:

* `src/mcp_client.py` — `MCPClient`: submit a tool call, then poll the
  returned `operation_url` until the operation reaches a terminal state
  or the wall-clock timeout fires.
* `src/mock_agent.py` — Flask reference server: an in-memory state table
  keyed by `context_id`; every inbound request (submit POST or poll GET)
  advances the context one step; step ≥ 2 is terminal.

Modelling choices:

* JSON dictionaries read by the code are modelled by structures holding
  exactly the fields the code reads; `dict.get` with a default becomes
  `Option.getD`.
* The network is modelled as a trace: the poll loop consumes one
  `PollOutcome` per GET it issues.  `transportError` stands for a network
  error or a non-2xx response (`raise_for_status`), both of which the
  code catches in the same `except` arm.
* Time: `time.sleep(retry_delay)` is the sole modelled time consumer;
  elapsed time is a rational accumulated by `retry_delay` per iteration.
  The loop's guard `time.time() - start_time > self.timeout` becomes
  `timeout < elapsed`, checked at the top of every iteration before the
  sleep, exactly as in the source.
* The client's poll loop catches *every* exception in its `try` block
  and continues (`except Exception: ... continue`).  In particular the
  `raise Exception(data.get("error", ...))` executed when a poll reports
  status `"failed"` is itself inside that `try`, so it is caught and the
  loop keeps polling.  The embedding therefore has no failure exit from
  inside the loop: the only exits are a `completed` poll and the timeout.
-/

/-- Keys of a Python dict whose values the server reads as strings
(only `"format_id"` is ever read from `input`). -/
abbrev InputData := List (String × String)

/-- `d.get(k, dflt)` on a Python dict modelled as an association list. -/
def dictGet (d : InputData) (k : String) (dflt : String) : String :=
  match d with
  | [] => dflt
  | (k2, v) :: rest => if k2 = k then v else dictGet rest k dflt

/-- One entry of the mock server's `result.formats` list. -/
structure Format where
  id : String
  name : String
deriving DecidableEq

/-- The `result` payload of a terminal server response: the fixed formats
list, a preview object, or the empty dict `{}`. -/
inductive ToolResult
  | formats (items : List Format)
  | preview (preview_url : String) (format_id : String)
  | empty
deriving DecidableEq

/-- The tool-specific terminal payload.  Mirrors the (textually identical)
dispatch on `s["tool"]` in `tools_root` (step 1 → 2 branch) and
`tools_poll` (step ≥ 2 branch) of `mock_agent.py`. -/
def terminalResult (tool : String) (input : InputData) : ToolResult :=
  if tool = "list_creative_formats" then
    .formats [⟨"banner_300x250", "300x250 Banner"⟩,
              ⟨"story_vertical", "Vertical Story Ad"⟩]
  else if tool = "preview_creative" then
    let fmt := dictGet input "format_id" "unknown"
    .preview ("mock://preview/" ++ fmt ++ ".png") fmt
  else
    .empty

/-- Server-side per-context state: `state[context_id] = {"step": ..,
"tool": .., "input": ..}` in `mock_agent.py`. -/
structure Entry where
  step : Nat
  tool : String
  input : InputData
deriving DecidableEq

/-- The module-level `state` dict of `mock_agent.py`, keyed by context id. -/
abbrev StateTable := List (String × Entry)

/-- `state.get(context_id)` — first-match lookup, as in a Python dict. -/
def lookupCtx : StateTable → String → Option Entry
  | [], _ => none
  | (k, v) :: rest, c => if k = c then some v else lookupCtx rest c

/-- In-place mutation `s["step"] = n` of the entry stored under `ctxId`. -/
def setStep : StateTable → String → Nat → StateTable
  | [], _, _ => []
  | (k, v) :: rest, c, n =>
      if k = c then (k, { v with step := n }) :: setStep rest c n
      else (k, v) :: setStep rest c n

/-- `f"{BASE_URL}/mcp/tools/{context_id}"`. -/
def opUrl (baseUrl ctxId : String) : String :=
  baseUrl ++ "/mcp/tools/" ++ ctxId

/-- A server HTTP response: status code plus the JSON fields the server
ever emits (`jsonify` defaults to HTTP 200; the unknown-context branch
returns 404). -/
structure ServerResponse where
  httpStatus : Nat
  status : String
  operation_url : Option String
  context_id : Option String
  result : Option ToolResult
  error : Option String
deriving DecidableEq

/-- `POST /mcp/tools` handler `tools_root` of `mock_agent.py`.  Returns the
updated state table and the response. -/
def tools_root (baseUrl : String) (st : StateTable) (tool ctxId : String)
    (inp : InputData) : StateTable × ServerResponse :=
  match lookupCtx st ctxId with
  | none =>
      ((ctxId, ⟨0, tool, inp⟩) :: st,
       ⟨200, "queued", some (opUrl baseUrl ctxId), some ctxId, none, none⟩)
  | some s =>
      if s.step = 0 then
        (setStep st ctxId 1,
         ⟨200, "in_progress", some (opUrl baseUrl ctxId), some ctxId, none, none⟩)
      else if s.step = 1 then
        (setStep st ctxId 2,
         ⟨200, "completed", none, none, some (terminalResult s.tool s.input), none⟩)
      else
        (st, ⟨200, "completed", none, none, some ToolResult.empty, none⟩)

/-- `GET /mcp/tools/<context_id>` handler `tools_poll` of `mock_agent.py`. -/
def tools_poll (baseUrl : String) (st : StateTable) (ctxId : String) :
    StateTable × ServerResponse :=
  match lookupCtx st ctxId with
  | none =>
      (st, ⟨404, "failed", none, none, none, some "no such context"⟩)
  | some s =>
      if s.step = 0 then
        (setStep st ctxId 1,
         ⟨200, "queued", some (opUrl baseUrl ctxId), none, none, none⟩)
      else if s.step = 1 then
        (setStep st ctxId 2,
         ⟨200, "in_progress", some (opUrl baseUrl ctxId), none, none, none⟩)
      else
        (st, ⟨200, "completed", none, none, some (terminalResult s.tool s.input), none⟩)

/-- The JSON fields of a response that `mcp_client.py` reads:
`status`, `operation_url`, `error`, `result`. -/
structure ClientData where
  status : Option String
  operationUrl : Option String
  error : Option String
  result : Option ToolResult
deriving DecidableEq

/-- What one poll GET yields to the client: a transport-level failure
(network error or non-2xx, both raised inside the `try` and caught), or a
parsed JSON body. -/
inductive PollOutcome
  | transportError
  | ok (d : ClientData)
deriving DecidableEq

/-- How the client perceives a server response: `raise_for_status` raises
for HTTP status ≥ 400; otherwise the JSON body is parsed. -/
def respToOutcome (r : ServerResponse) : PollOutcome :=
  if 400 ≤ r.httpStatus then .transportError
  else .ok ⟨some r.status, r.operation_url, r.error, r.result⟩

/-- Result of the client's poll loop. -/
inductive LoopResult
  | completedR (d : ClientData)
  | timedOut
  | exhausted
deriving DecidableEq

/-- The `while True` loop of `MCPClient._poll_until_complete`, driven by a
trace of poll outcomes; also counts the poll GETs issued.  Each iteration:
check `timeout < elapsed` (raise timeout), `sleep(retry_delay)`, issue the
GET.  A `completed` poll returns; every other outcome — transport failure,
any other status, and notably `failed` (whose `raise` is caught by the
loop's own `except`) — falls through to the next iteration.  `exhausted`
marks a trace too short to decide (not a program behaviour). -/
def pollLoop (rd tmo : ℚ) : ℚ → List PollOutcome → LoopResult × Nat
  | elapsed, [] =>
      if tmo < elapsed then (.timedOut, 0) else (.exhausted, 0)
  | elapsed, .transportError :: rest =>
      if tmo < elapsed then (.timedOut, 0)
      else
        let r := pollLoop rd tmo (elapsed + rd) rest
        (r.1, r.2 + 1)
  | elapsed, .ok d :: rest =>
      if tmo < elapsed then (.timedOut, 0)
      else if d.status = some "completed" then (.completedR d, 1)
      else
        let r := pollLoop rd tmo (elapsed + rd) rest
        (r.1, r.2 + 1)

/-- How `MCPClient.call_tool` can end, on the runs the claims concern. -/
inductive CallOutcome
  | returned (d : ClientData)
  | noOperationUrl
  | operationFailed (err : String)
  | timedOut
  | exhausted
deriving DecidableEq

/-- Inject a loop result into a call outcome. -/
def liftResult : LoopResult → CallOutcome
  | .completedR d => .returned d
  | .timedOut => .timedOut
  | .exhausted => .exhausted

/-- The configuration fields of `MCPClient.__init__` (`agent_url`,
`max_retries`, `retry_delay`, `timeout`). -/
structure MCPClient where
  agent_url : String
  max_retries : Nat
  retry_delay : ℚ
  timeout : ℚ
deriving DecidableEq

/-- `MCPClient._poll_until_complete`: reject a missing or empty
`operation_url` (Python truthiness: `if not operation_url`), return an
already-`completed` initial response, raise on an initial `failed`, and
otherwise run the poll loop.  Returns the outcome and the number of poll
GETs issued. -/
def poll_until_complete (rd tmo : ℚ) (initial : ClientData)
    (polls : List PollOutcome) : CallOutcome × Nat :=
  match initial.operationUrl with
  | none => (.noOperationUrl, 0)
  | some u =>
      if u = "" then (.noOperationUrl, 0)
      else
        let status := initial.status.getD "unknown"
        if status = "completed" then (.returned initial, 0)
        else if status = "failed" then
          (.operationFailed (initial.error.getD "Operation failed"), 0)
        else
          let r := pollLoop rd tmo 0 polls
          (liftResult r.1, r.2)

/-- `MCPClient.call_tool` after the initial submit: poll only when
`wait_for_completion` holds and the submit response status is `queued` or
`in_progress`; otherwise return the submit response unchanged. -/
def call_tool (c : MCPClient) (wait : Bool) (initial : ClientData)
    (polls : List PollOutcome) : CallOutcome × Nat :=
  let status := initial.status.getD "unknown"
  if wait = true ∧ (status = "queued" ∨ status = "in_progress") then
    poll_until_complete c.retry_delay c.timeout initial polls
  else
    (.returned initial, 0)

/-- A format decorated by the client: the server fields plus the derived
`FormatID`. -/
structure DecoratedFormat where
  id : String
  name : String
  FormatID : String
deriving DecidableEq

/-- `response.get("result", {}).get("formats", [])`: the formats list if
the result payload has one, else the empty list. -/
def getResultFormats : Option ToolResult → List Format
  | some (.formats fs) => fs
  | _ => []

/-- `f["FormatID"] = f"{self.agent_url}/{f.get('id', '')}"`. -/
def decorate (agentUrl : String) (f : Format) : DecoratedFormat :=
  ⟨f.id, f.name, agentUrl ++ "/" ++ f.id⟩

/-- `MCPClient.list_creative_formats`, applied to the response produced by
`call_tool`: on `completed`, decorate and return the formats; otherwise
raise `Exception("Listing formats failed")`. -/
def list_creative_formats (agentUrl : String) (response : ClientData) :
    Except String (List DecoratedFormat) :=
  if response.status = some "completed" then
    .ok ((getResultFormats response.result).map (decorate agentUrl))
  else
    .error "Listing formats failed"

/-! ## Helper lemmas -/

/-- Updating the step of the entry stored under `ctxId` is visible to a
subsequent lookup of that same `ctxId`. -/
theorem lookupCtx_setStep (ctxId : String) (n : Nat) :
    ∀ (st : StateTable) (e : Entry), lookupCtx st ctxId = some e →
      lookupCtx (setStep st ctxId n) ctxId = some { e with step := n } := by
  intro st
  induction st with
  | nil => intro e h; simp [lookupCtx] at h
  | cons p rest ih =>
      intro e h
      obtain ⟨k, v⟩ := p
      by_cases hk : k = ctxId
      · subst hk
        simp [lookupCtx] at h
        subst h
        simp [setStep, lookupCtx]
      · simp [lookupCtx, hk] at h
        simp [setStep, lookupCtx, hk]
        exact ih e h

/-- Once the wall clock is past the ceiling, the next loop iteration exits
with `timedOut` before issuing any GET, whatever the remaining trace. -/
theorem pollLoop_timeout_now (rd tmo elapsed : ℚ) (h : tmo < elapsed) :
    ∀ polls, pollLoop rd tmo elapsed polls = (.timedOut, 0) := by
  intro polls
  cases polls with
  | nil => simp [pollLoop, h]
  | cons p rest => cases p <;> simp [pollLoop, h]

/-- A run of transport failures long enough to push the elapsed time past
the ceiling makes the loop exit with `timedOut`. -/
theorem pollLoop_replicate_timedOut (rd tmo : ℚ) :
    ∀ (n : ℕ) (elapsed : ℚ), tmo < elapsed + (n : ℚ) * rd →
      (pollLoop rd tmo elapsed (List.replicate n .transportError)).1 = .timedOut := by
  intro n
  induction n with
  | zero =>
      intro elapsed h
      push_cast at h
      simp only [zero_mul, add_zero] at h
      simp [List.replicate, pollLoop, h]
  | succ n ih =>
      intro elapsed h
      by_cases hto : tmo < elapsed
      · simp [List.replicate, pollLoop, hto]
      · have hstep : tmo < (elapsed + rd) + (n : ℚ) * rd := by push_cast at h ⊢; linarith
        simp only [List.replicate, pollLoop, hto, if_false]
        exact ih (elapsed + rd) hstep

/-- A run of `n` transport failures followed by a successful `completed`
poll lets the loop return that result after `n + 1` GETs, provided the
elapsed time never crosses the ceiling. -/
theorem pollLoop_replicate_completed (rd tmo : ℚ) (hrd : 0 ≤ rd) (d : ClientData)
    (hd : d.status = some "completed") :
    ∀ (n : ℕ) (elapsed : ℚ), elapsed + (n : ℚ) * rd ≤ tmo →
      pollLoop rd tmo elapsed (List.replicate n .transportError ++ [.ok d]) =
        (.completedR d, n + 1) := by
  intro n
  induction n with
  | zero =>
      intro elapsed h
      push_cast at h
      simp only [zero_mul, add_zero] at h
      have hto : ¬ tmo < elapsed := not_lt.mpr h
      simp [List.replicate, pollLoop, hto, hd]
  | succ n ih =>
      intro elapsed h
      have hnn : (0 : ℚ) ≤ ((n : ℚ) + 1) * rd := by positivity
      have hto : ¬ tmo < elapsed := by push_cast at h; nlinarith
      have hstep : (elapsed + rd) + (n : ℚ) * rd ≤ tmo := by push_cast at h ⊢; linarith
      simp only [List.replicate, List.cons_append, pollLoop, hto, if_false]
      have hrec := ih (elapsed + rd) hstep
      simp only [List.append_eq] at hrec ⊢
      rw [hrec]

/-! ## Claim theorems -/

/-- C1 (code bug witnessed): when a poll GET succeeds with status
`"failed"`, the client does NOT terminate with the server's error: the
`raise` sits inside the loop's `try` and is caught by the blanket
`except`, so the loop keeps polling.  Concretely, after a `failed` poll
the run goes on to return a later `completed` payload (first conjunct),
and when every poll keeps reporting `failed` the run ends in the timeout
error instead of the operation-failed error (second conjunct). -/
theorem c1_failed_status_swallowed :
    call_tool ⟨"http://a", 30, 2, 300⟩ true
        ⟨some "queued", some "http://a/mcp/tools/c1", none, none⟩
        [.ok ⟨some "failed", none, some "boom", none⟩,
         .ok ⟨some "completed", none, none, some .empty⟩]
      = (.returned ⟨some "completed", none, none, some .empty⟩, 2) ∧
    (call_tool ⟨"http://a", 30, 2, 3⟩ true
        ⟨some "queued", some "http://a/mcp/tools/c1", none, none⟩
        (List.replicate 3 (.ok ⟨some "failed", none, some "boom", none⟩))).1
      = .timedOut := by
  constructor
  · norm_num [call_tool, poll_until_complete, pollLoop, liftResult]
    decide
  · norm_num [call_tool, poll_until_complete, List.replicate, pollLoop, liftResult]
    decide

/-- C2 (claim as stated is false): polling a nonexistent context does
return a 404 `failed` response, but the client never surfaces an
operation-failed error for it: `raise_for_status` turns the 404 into the
transient-error path, which is swallowed, and the run ends in the timeout
error after looping until the wall-clock ceiling. -/
theorem c2_counterexample :
    (tools_poll "https://adcp-creative.onrender.com" [] "missing").2
      = ⟨404, "failed", none, none, none, some "no such context"⟩ ∧
    respToOutcome (tools_poll "https://adcp-creative.onrender.com" [] "missing").2
      = .transportError ∧
    (call_tool ⟨"http://a", 30, 2, 3⟩ true
        ⟨some "queued", some "http://a/mcp/tools/x", none, none⟩
        (List.replicate 3
          (respToOutcome (tools_poll "https://adcp-creative.onrender.com" [] "missing").2))).1
      = .timedOut := by
  refine ⟨by simp [tools_poll, lookupCtx], by simp [tools_poll, lookupCtx, respToOutcome], ?_⟩
  norm_num [call_tool, poll_until_complete, tools_poll, lookupCtx, respToOutcome,
    List.replicate, pollLoop, liftResult]
  decide

/-- C2 (amended): a poll GET for a contextID absent from the state table
returns HTTP 404 with status `"failed"` and error `"no such context"`; the
client perceives the 404 as a transport failure, and a poll loop fed only
such responses, long enough to cross the wall-clock ceiling, ends in the
timeout error — not an operation-failed error. -/
theorem c2_unknown_context_times_out (baseUrl : String) (st : StateTable)
    (ctxId : String) (h : lookupCtx st ctxId = none) (rd tmo : ℚ) (n : ℕ)
    (hn : tmo < (n : ℚ) * rd) :
    (tools_poll baseUrl st ctxId).2
      = ⟨404, "failed", none, none, none, some "no such context"⟩ ∧
    respToOutcome (tools_poll baseUrl st ctxId).2 = .transportError ∧
    (pollLoop rd tmo 0
        (List.replicate n (respToOutcome (tools_poll baseUrl st ctxId).2))).1
      = .timedOut := by
  have hresp : (tools_poll baseUrl st ctxId).2
      = ⟨404, "failed", none, none, none, some "no such context"⟩ := by
    simp [tools_poll, h]
  have hout : respToOutcome (tools_poll baseUrl st ctxId).2 = .transportError := by
    rw [hresp]; simp [respToOutcome]
  refine ⟨hresp, hout, ?_⟩
  rw [hout]
  exact pollLoop_replicate_timedOut rd tmo n 0 (by linarith)

/-- Witness for `c2_unknown_context_times_out` at a concrete state table,
context id and configuration. -/
theorem c2_unknown_context_times_out_witness :
    (tools_poll "B" [("c1", ⟨1, "t", []⟩)] "missing").2
      = ⟨404, "failed", none, none, none, some "no such context"⟩ ∧
    respToOutcome (tools_poll "B" [("c1", ⟨1, "t", []⟩)] "missing").2
      = .transportError ∧
    (pollLoop 2 3 0
        (List.replicate 3 (respToOutcome (tools_poll "B" [("c1", ⟨1, "t", []⟩)] "missing").2))).1
      = .timedOut :=
  c2_unknown_context_times_out "B" [("c1", ⟨1, "t", []⟩)] "missing" (by decide)
    2 3 3 (by norm_num)

/-- C3 (claim as stated is false): for a context at terminal step with
tool `"list_creative_formats"`, a submit POST returns the empty `{}`
payload while a poll GET reconstructs the formats payload — so not every
subsequent request returns the same payload. -/
theorem c3_counterexample :
    (tools_root "B" [("c", ⟨2, "list_creative_formats", []⟩)]
        "list_creative_formats" "c" []).2.result
      ≠ (tools_poll "B" [("c", ⟨2, "list_creative_formats", []⟩)] "c").2.result := by
  decide

/-- C3 (amended): for a context at step ≥ 2, a poll GET is an idempotent
replay — status `"completed"`, payload recomputed from the stored tool and
`originalInput`, state table untouched — so repeated polls return the
same terminal payload and never regress to `queued`/`in_progress`; a
submit POST for that context also answers terminal `"completed"` without
touching the state, but with the empty `{}` payload regardless of the
stored tool. -/
theorem c3_terminal_replay (baseUrl : String) (st : StateTable) (ctxId : String)
    (e : Entry) (tool2 : String) (inp2 : InputData)
    (h : lookupCtx st ctxId = some e) (h2 : 2 ≤ e.step) :
    tools_poll baseUrl st ctxId
      = (st, ⟨200, "completed", none, none, some (terminalResult e.tool e.input), none⟩) ∧
    tools_root baseUrl st tool2 ctxId inp2
      = (st, ⟨200, "completed", none, none, some ToolResult.empty, none⟩) := by
  have hne0 : ¬ e.step = 0 := by omega
  have hne1 : ¬ e.step = 1 := by omega
  constructor
  · simp [tools_poll, h, hne0, hne1]
  · simp [tools_root, h, hne0, hne1]

/-- Witness for `c3_terminal_replay` on a concrete terminal context. -/
theorem c3_terminal_replay_witness :
    tools_poll "B" [("c", ⟨2, "preview_creative", [("format_id", "f1")]⟩)] "c"
      = ([("c", ⟨2, "preview_creative", [("format_id", "f1")]⟩)],
         ⟨200, "completed", none, none,
          some (terminalResult "preview_creative" [("format_id", "f1")]), none⟩) ∧
    tools_root "B" [("c", ⟨2, "preview_creative", [("format_id", "f1")]⟩)] "other" "c" []
      = ([("c", ⟨2, "preview_creative", [("format_id", "f1")]⟩)],
         ⟨200, "completed", none, none, some ToolResult.empty, none⟩) :=
  c3_terminal_replay "B" [("c", ⟨2, "preview_creative", [("format_id", "f1")]⟩)] "c"
    ⟨2, "preview_creative", [("format_id", "f1")]⟩ "other" [] (by decide) (by decide)

/-- C4 (claim as stated is false): a first poll GET against a context at
step 0 responds `"queued"`, not `"in_progress"`. -/
theorem c4_counterexample :
    (tools_poll "B" [("c", ⟨0, "t", []⟩)] "c").2.status = "queued" ∧
    (tools_poll "B" [("c", ⟨0, "t", []⟩)] "c").2.status ≠ "in_progress" := by
  decide

/-- C4 (amended): for a context at step 0, the next inbound request
advances the step to 1 on both endpoints, but only the submit POST
responds `"in_progress"`; a first poll GET responds `"queued"` (each with
a fresh operation URL). -/
theorem c4_step0_advance (baseUrl : String) (st : StateTable) (ctxId : String)
    (e : Entry) (h : lookupCtx st ctxId = some e) (h0 : e.step = 0) :
    tools_root baseUrl st e.tool ctxId e.input
      = (setStep st ctxId 1,
         ⟨200, "in_progress", some (opUrl baseUrl ctxId), some ctxId, none, none⟩) ∧
    tools_poll baseUrl st ctxId
      = (setStep st ctxId 1,
         ⟨200, "queued", some (opUrl baseUrl ctxId), none, none, none⟩) ∧
    lookupCtx (setStep st ctxId 1) ctxId = some { e with step := 1 } := by
  refine ⟨by simp [tools_root, h, h0], by simp [tools_poll, h, h0], ?_⟩
  exact lookupCtx_setStep ctxId 1 st e h

/-- Witness for `c4_step0_advance` on a concrete step-0 context. -/
theorem c4_step0_advance_witness :
    tools_root "B" [("c", ⟨0, "t", [("k", "v")]⟩)] "t" "c" [("k", "v")]
      = (setStep [("c", ⟨0, "t", [("k", "v")]⟩)] "c" 1,
         ⟨200, "in_progress", some (opUrl "B" "c"), some "c", none, none⟩) ∧
    tools_poll "B" [("c", ⟨0, "t", [("k", "v")]⟩)] "c"
      = (setStep [("c", ⟨0, "t", [("k", "v")]⟩)] "c" 1,
         ⟨200, "queued", some (opUrl "B" "c"), none, none, none⟩) ∧
    lookupCtx (setStep [("c", ⟨0, "t", [("k", "v")]⟩)] "c" 1) "c"
      = some ⟨1, "t", [("k", "v")]⟩ :=
  c4_step0_advance "B" [("c", ⟨0, "t", [("k", "v")]⟩)] "c" ⟨0, "t", [("k", "v")]⟩
    (by decide) (by decide)

/-- C5 (claim as stated is false): with `timeout = 1 < 2 = retry_delay`,
the first poll iteration does not raise the timeout error before issuing
a GET: the elapsed-time check passes at 0 seconds, the client sleeps,
issues one poll GET, and here even returns that poll's `completed`
payload — no timeout error at all. -/
theorem c5_counterexample :
    call_tool ⟨"http://a", 30, 2, 1⟩ true
        ⟨some "queued", some "http://a/mcp/tools/c5", none, none⟩
        [.ok ⟨some "completed", none, none, some .empty⟩]
      = (.returned ⟨some "completed", none, none, some .empty⟩, 1) := by
  norm_num [call_tool, poll_until_complete, pollLoop, liftResult]
  decide

/-- C5 (amended): when `0 ≤ timeout < retry_delay`, the first loop
iteration passes the elapsed-time check, sleeps, and issues exactly one
poll GET; if that poll returns `"completed"` its payload is returned,
and otherwise the second iteration raises the timeout error — in either
case exactly one poll GET beyond the initial submit is sent, not zero. -/
theorem c5_one_poll_then_timeout (rd tmo : ℚ) (h0 : 0 ≤ tmo) (h1 : tmo < rd)
    (d : ClientData) (rest : List PollOutcome) :
    pollLoop rd tmo 0 (.transportError :: rest) = (.timedOut, 1) ∧
    (d.status = some "completed" →
      pollLoop rd tmo 0 (.ok d :: rest) = (.completedR d, 1)) ∧
    (d.status ≠ some "completed" →
      pollLoop rd tmo 0 (.ok d :: rest) = (.timedOut, 1)) := by
  have hto0 : ¬ tmo < 0 := not_lt.mpr h0
  have hnext : pollLoop rd tmo rd rest = (.timedOut, 0) :=
    pollLoop_timeout_now rd tmo rd (by linarith) rest
  refine ⟨?_, fun hd => ?_, fun hd => ?_⟩
  · simp [pollLoop, hto0, hnext]
  · simp [pollLoop, hto0, hd]
  · simp [pollLoop, hto0, hd, hnext]

/-- Witness for `c5_one_poll_then_timeout` at `retry_delay = 2`,
`timeout = 1` and a non-terminal poll body. -/
theorem c5_one_poll_then_timeout_witness :
    pollLoop 2 1 0 [.transportError] = (.timedOut, 1) ∧
    ((⟨some "in_progress", some "u", none, none⟩ : ClientData).status = some "completed" →
      pollLoop 2 1 0 [.ok ⟨some "in_progress", some "u", none, none⟩] =
        (.completedR ⟨some "in_progress", some "u", none, none⟩, 1)) ∧
    ((⟨some "in_progress", some "u", none, none⟩ : ClientData).status ≠ some "completed" →
      pollLoop 2 1 0 [.ok ⟨some "in_progress", some "u", none, none⟩] = (.timedOut, 1)) :=
  c5_one_poll_then_timeout 2 1 (by decide) (by decide)
    ⟨some "in_progress", some "u", none, none⟩ []

/-- C6 (confirmed): a pending submit response (`queued` or `in_progress`)
whose `operation_url` is missing — or empty, which Python truthiness also
rejects — makes the client fail immediately with the no-operation-url
error, issuing zero poll GETs: it never enters the poll loop. -/
theorem c6_missing_operation_url (c : MCPClient) (initial : ClientData)
    (hpend : initial.status = some "queued" ∨ initial.status = some "in_progress")
    (hurl : initial.operationUrl = none ∨ initial.operationUrl = some "")
    (polls : List PollOutcome) :
    call_tool c true initial polls = (.noOperationUrl, 0) := by
  unfold call_tool poll_until_complete
  rcases hurl with hurl | hurl <;> rcases hpend with hpend | hpend <;>
    simp [hurl, hpend]

/-- Witness for `c6_missing_operation_url` on a `queued` response with no
`operation_url`. -/
theorem c6_missing_operation_url_witness :
    call_tool ⟨"http://a", 30, 2, 300⟩ true ⟨some "queued", none, none, none⟩
        [.transportError] = (.noOperationUrl, 0) :=
  c6_missing_operation_url ⟨"http://a", 30, 2, 300⟩ ⟨some "queued", none, none, none⟩
    (Or.inl rfl) (Or.inl rfl) [.transportError]

/-- C7 (confirmed): a pending call whose polls fail at the transport
level `n` times and then succeed with a `completed` body still returns
that terminal payload after `n + 1` poll GETs, provided the accumulated
inter-poll delay stays within the timeout ceiling: transient failures are
swallowed, not raised. -/
theorem c7_transient_tolerance (c : MCPClient) (hrd : 0 ≤ c.retry_delay) (n : ℕ)
    (hn : (n : ℚ) * c.retry_delay ≤ c.timeout) (u : String) (hu : ¬ u = "")
    (d : ClientData) (hd : d.status = some "completed") :
    call_tool c true ⟨some "queued", some u, none, none⟩
        (List.replicate n .transportError ++ [.ok d])
      = (.returned d, n + 1) := by
  have hloop := pollLoop_replicate_completed c.retry_delay c.timeout hrd d hd n 0
    (by linarith [hn])
  unfold call_tool poll_until_complete
  simp [hu, hloop, liftResult]

/-- Witness for `c7_transient_tolerance`: three transport failures before
the `completed` poll, well inside the default 300-second ceiling. -/
theorem c7_transient_tolerance_witness :
    call_tool ⟨"http://a", 30, 2, 300⟩ true
        ⟨some "queued", some "http://a/mcp/tools/c7", none, none⟩
        (List.replicate 3 .transportError ++
          [.ok ⟨some "completed", none, none, some .empty⟩])
      = (.returned ⟨some "completed", none, none, some .empty⟩, 3 + 1) :=
  c7_transient_tolerance ⟨"http://a", 30, 2, 300⟩ (by norm_num) 3 (by norm_num)
    "http://a/mcp/tools/c7" (by decide) ⟨some "completed", none, none, some .empty⟩ rfl

/-- C8 (confirmed): applied to the reference server's terminal payload
for `"list_creative_formats"`, the client returns the two format items
each decorated with `FormatID = agent_url ++ "/" ++ id`; applied to any
response whose status is not `"completed"`, it fails with the
listing-failed error instead of returning a list. -/
theorem c8_list_formats_decorated (agentUrl : String) (inp : InputData)
    (response other : ClientData)
    (hres : response.result = some (terminalResult "list_creative_formats" inp))
    (hst : response.status = some "completed")
    (hother : other.status ≠ some "completed") :
    list_creative_formats agentUrl response
      = .ok [⟨"banner_300x250", "300x250 Banner", agentUrl ++ "/" ++ "banner_300x250"⟩,
             ⟨"story_vertical", "Vertical Story Ad", agentUrl ++ "/" ++ "story_vertical"⟩] ∧
    list_creative_formats agentUrl other = .error "Listing formats failed" := by
  constructor
  · simp [list_creative_formats, hst, hres, terminalResult, getResultFormats, decorate]
  · simp [list_creative_formats, hother]

/-- Witness for `c8_list_formats_decorated` at a concrete base URL and a
`failed` second response. -/
theorem c8_list_formats_decorated_witness :
    list_creative_formats "http://a"
        ⟨some "completed", none, none, some (terminalResult "list_creative_formats" [])⟩
      = .ok [⟨"banner_300x250", "300x250 Banner", "http://a" ++ "/" ++ "banner_300x250"⟩,
             ⟨"story_vertical", "Vertical Story Ad", "http://a" ++ "/" ++ "story_vertical"⟩] ∧
    list_creative_formats "http://a" ⟨some "failed", none, some "e", none⟩
      = .error "Listing formats failed" :=
  c8_list_formats_decorated "http://a" []
    ⟨some "completed", none, none, some (terminalResult "list_creative_formats" [])⟩
    ⟨some "failed", none, some "e", none⟩ rfl rfl (by decide)

/-- C9 (confirmed): `max_retries` is stored by `__init__` but read
nowhere in the poll path, so two clients that differ only in
`max_retries` produce, for the same submit response and the same network
trace, the same outcome and the same number of poll GETs — only the
wall-clock ceiling bounds the polling. -/
theorem c9_max_retries_no_influence (c1 c2 : MCPClient)
    (hurl : c1.agent_url = c2.agent_url)
    (hrd : c1.retry_delay = c2.retry_delay)
    (hto : c1.timeout = c2.timeout)
    (wait : Bool) (initial : ClientData) (polls : List PollOutcome) :
    call_tool c1 wait initial polls = call_tool c2 wait initial polls := by
  unfold call_tool
  rw [hrd, hto]

/-- Witness for `c9_max_retries_no_influence`: `max_retries` 30 versus 0,
all other configuration equal. -/
theorem c9_max_retries_no_influence_witness :
    call_tool ⟨"http://a", 30, 2, 300⟩ true ⟨some "queued", some "u", none, none⟩
        [.ok ⟨some "completed", none, none, some .empty⟩]
      = call_tool ⟨"http://a", 0, 2, 300⟩ true ⟨some "queued", some "u", none, none⟩
        [.ok ⟨some "completed", none, none, some .empty⟩] :=
  c9_max_retries_no_influence ⟨"http://a", 30, 2, 300⟩ ⟨"http://a", 0, 2, 300⟩
    rfl rfl rfl true ⟨some "queued", some "u", none, none⟩
    [.ok ⟨some "completed", none, none, some .empty⟩]

/-- C10 (confirmed): handling a poll GET for a context whose stored step
is at least 2 returns the state table unchanged — no entry is added,
removed or modified; only a response is produced. -/
theorem c10_poll_terminal_frame (baseUrl : String) (st : StateTable)
    (ctxId : String) (e : Entry) (h : lookupCtx st ctxId = some e)
    (h2 : 2 ≤ e.step) :
    (tools_poll baseUrl st ctxId).1 = st := by
  have hne0 : ¬ e.step = 0 := by omega
  have hne1 : ¬ e.step = 1 := by omega
  simp [tools_poll, h, hne0, hne1]

/-- Witness for `c10_poll_terminal_frame` on a concrete two-entry table. -/
theorem c10_poll_terminal_frame_witness :
    (tools_poll "B" [("a", ⟨1, "t", []⟩), ("c", ⟨3, "preview_creative", []⟩)] "c").1
      = [("a", ⟨1, "t", []⟩), ("c", ⟨3, "preview_creative", []⟩)] :=
  c10_poll_terminal_frame "B" [("a", ⟨1, "t", []⟩), ("c", ⟨3, "preview_creative", []⟩)]
    "c" ⟨3, "preview_creative", []⟩ (by decide) (by decide)
